import Mathlib

/-!
Shallow embedding of the data-access layer of the lccs-ws service
(`src/lccs_ws/data.py`).  Each table of the relational store is a list of
rows; a repository function is a pure function from a `DB` state (and its
arguments) to an `Except` value: `.error` models a Flask `abort` /
`first_or_404` exception, in which case the surrounding nested transaction
rolls back and the caller's state is unchanged.  Queries inside a pending
transaction see rows added earlier in the same transaction (autoflush), so
state is threaded through each loop.
-/

namespace LccsWs

/-- Row of the classification-system table (`LucClassificationSystem`). -/
structure LucClassificationSystem where
  id : Nat
  name : String
  authority_name : String
  version : String
  description : Option String
deriving DecidableEq, Repr

/-- Row of the class table (`LucClass`). -/
structure LucClass where
  id : Nat
  name : String
  code : String
  description : Option String
  class_system_id : Nat
  class_parent_id : Option Nat
deriving DecidableEq, Repr

/-- Row of the class-mapping table (`ClassMapping`).  The numeric
`degree_of_similarity` is only ever stored and truth-tested (never used in
arithmetic), so we embed it as `Int`; `0` is the Python-falsy value. -/
structure ClassMapping where
  id : Nat
  source_class_id : Nat
  target_class_id : Nat
  description : Option String
  degree_of_similarity : Int
deriving DecidableEq, Repr

/-- Row of the style-format table (`StyleFormats`). -/
structure StyleFormats where
  id : Nat
  name : String
deriving DecidableEq, Repr

/-- Row of the style table (`Styles`); the binary payload is a byte list. -/
structure Styles where
  id : Nat
  class_system_id : Nat
  style_format_id : Nat
  mime_type : String
  style : List Nat
deriving DecidableEq, Repr

/-- The relational store: one list per table, plus the store's id
generator for freshly inserted rows. -/
structure DB where
  next_id : Nat
  systems : List LucClassificationSystem
  classes : List LucClass
  mappings : List ClassMapping
  style_formats : List StyleFormats
  styles : List Styles
deriving DecidableEq, Repr

/-- The three error signals the module raises: `first_or_404` raises
`notFound`, `abort(400, ...)` raises `badRequest`, `abort(409, ...)`
raises `conflict`. -/
inductive ApiError where
  | notFound
  | badRequest
  | conflict
deriving DecidableEq, Repr

deriving instance DecidableEq for Except

/-- `query(...).filter(...).first_or_404()`: the first matching row, or a
`notFound` signal. -/
def firstOr404 {α : Type} (l : List α) (p : α → Bool) : Except ApiError α :=
  match l.find? p with
  | none => .error .notFound
  | some x => .ok x

/-- Replace the first element satisfying `p` by its image under `f`
(SQLAlchemy in-place mutation of the row returned by `first`/`first_or_404`). -/
def updateFirst {α : Type} (p : α → Bool) (f : α → α) : List α → List α
  | [] => []
  | x :: xs => if p x then f x :: xs else x :: updateFirst p f xs

/-- `db.session.delete(row)`: remove the row with the given primary key
(first occurrence). -/
def eraseClassById (classes : List LucClass) (cid : Nat) : List LucClass :=
  match classes with
  | [] => []
  | c :: cs => if c.id == cid then cs else c :: eraseClassById cs cid

/-- `db.session.delete(mapping)`: remove the mapping row with the given
primary key (first occurrence). -/
def eraseMappingById (mappings : List ClassMapping) (mid : Nat) : List ClassMapping :=
  match mappings with
  | [] => []
  | m :: ms => if m.id == mid then ms else m :: eraseMappingById ms mid

/-- Python truthiness of an optional string: `None` and the empty string
are falsy. -/
def truthyStr : Option String → Bool
  | none => false
  | some s => s != ""

/-- Python truthiness of an optional numeric: `None` and `0` are falsy. -/
def truthyInt : Option Int → Bool
  | none => false
  | some q => q != 0

/-- `get_style_format`: looks the row up with `.first()` (not
`first_or_404`), so an absent id yields a dump of `None` rather than a
NotFound signal. -/
def get_style_format (db : DB) (style_format_id : Nat) : Option StyleFormats :=
  db.style_formats.find? (fun f => f.id == style_format_id)

/-- `get_classification_system_style`: select `(style, mime_type)` from
`Styles` joined with `StyleFormats` on the format id, filtered by
`(class_system_id, style_format_id)`, `.first()` (an `Option`, no 404). -/
def get_classification_system_style (db : DB) (system_id style_format_id : Nat) :
    Option (List Nat × String) :=
  (((db.styles.filter (fun s => db.style_formats.any (fun f => f.id == s.style_format_id))).filter
      (fun s => s.class_system_id == system_id && s.style_format_id == style_format_id)).head?).map
    (fun s => (s.style, s.mime_type))

/-- `get_mappings`: ids of classes of the source system, then the distinct
target class ids of mappings out of them, then the distinct ids of the
systems owning those target classes (join of systems with their classes). -/
def get_mappings (db : DB) (system_id_source : Nat) : List Nat :=
  let classes_source :=
    (db.classes.filter (fun c => c.class_system_id == system_id_source)).map (fun c => c.id)
  let targets_class_id :=
    ((db.mappings.filter (fun m => classes_source.contains m.source_class_id)).map
      (fun m => m.target_class_id)).dedup
  (db.systems.flatMap (fun s =>
      (db.classes.filter (fun c =>
        c.class_system_id == s.id && targets_class_id.contains c.id)).map
        (fun _ => s.id))).dedup

/-- `get_system_mapping`: every mapping row whose source class belongs to
the source system and whose target class belongs to the target system.
The query's `.all()` always returns a list (possibly empty, never `None`). -/
def get_system_mapping (db : DB) (system_id_source system_id_target : Nat) :
    List ClassMapping :=
  let classes_source :=
    (db.classes.filter (fun c => c.class_system_id == system_id_source)).map (fun c => c.id)
  let classes_target :=
    (db.classes.filter (fun c => c.class_system_id == system_id_target)).map (fun c => c.id)
  db.mappings.filter (fun m =>
    classes_source.contains m.source_class_id && classes_target.contains m.target_class_id)

/-- `classification_system`: `first_or_404` lookup of a system by id. -/
def classification_system (db : DB) (system_id : Nat) :
    Except ApiError LucClassificationSystem :=
  firstOr404 db.systems (fun s => s.id == system_id)

/-- `create_classification_system`: a duplicate `(name, version)` pair hits
`abort(400, 'Classification System already registered!')`; otherwise a row
is inserted and committed. -/
def create_classification_system (db : DB) (name authority_name version : String)
    (description : Option String) : Except ApiError (LucClassificationSystem × DB) :=
  match db.systems.find? (fun s => s.name == name && s.version == version) with
  | some _ => .error .badRequest
  | none =>
    let system : LucClassificationSystem :=
      { id := db.next_id, name := name, authority_name := authority_name,
        version := version, description := description }
    .ok (system, { db with next_id := db.next_id + 1, systems := db.systems ++ [system] })

/-- `insert_class`: a duplicate class name within the system hits
`abort(409, 'Class already registered in the system!')`; otherwise the new
row is added to the session (visible to later queries in the same
transaction). -/
def insert_class (db : DB) (system_id : Nat) (name code : String)
    (description : Option String) (class_parent_id : Option Nat) : Except ApiError DB :=
  match db.classes.find? (fun c => c.class_system_id == system_id && c.name == name) with
  | some _ => .error .conflict
  | none =>
    let c : LucClass :=
      { id := db.next_id, name := name, code := code, description := description,
        class_system_id := system_id, class_parent_id := class_parent_id }
    .ok { db with next_id := db.next_id + 1, classes := db.classes ++ [c] }

/-- One class descriptor of the bulk-insert payload (the kwargs passed to
`insert_class`). -/
structure ClassDesc where
  name : String
  code : String
  description : Option String
  class_parent_id : Option Nat
deriving DecidableEq, Repr

/-- The `for classes in classes_files_json: insert_class(...)` loop inside
`insert_classes`'s nested transaction; an exception aborts the whole loop. -/
def insertClassesLoop (system_id : Nat) : DB → List ClassDesc → Except ApiError DB
  | db, [] => .ok db
  | db, d :: ds =>
    match insert_class db system_id d.name d.code d.description d.class_parent_id with
    | .error e => .error e
    | .ok db2 => insertClassesLoop system_id db2 ds

/-- `insert_classes`: `classification_system` (a `first_or_404`) guards the
call, so a missing system raises NotFound; the source's following
`if system is None: abort(400, ...)` can then never fire.  The insert loop
runs inside one nested transaction: any failure rolls the whole batch back
(the `.error` result carries no new state). -/
def insert_classes (db : DB) (system_id : Nat) (classes_files_json : List ClassDesc) :
    Except ApiError (List LucClass × DB) :=
  match classification_system db system_id with
  | .error e => .error e
  | .ok _system =>
    match insertClassesLoop system_id db classes_files_json with
    | .error e => .error e
    | .ok db2 => .ok (db2.classes.filter (fun c => c.class_system_id == system_id), db2)

/-- The state visible to the caller after a repository call returning a
value and a state: on an exception the transaction rolled back, so the
original state remains. -/
def DB.run {α : Type} (db : DB) (r : Except ApiError (α × DB)) : DB :=
  match r with
  | .error _ => db
  | .ok (_, db2) => db2

/-- `insert_file`: the system must exist (`first_or_404` via
`classification_system`) and the style format must exist (`first_or_404`);
then the file is read, the mime type derived from the filename by the
external `get_mimetype` collaborator, and the style row inserted and
committed. -/
def insert_file (db : DB) (get_mimetype : String → String)
    (style_format_id system_id : Nat) (file_content : List Nat) (filename : String) :
    Except ApiError (Styles × DB) :=
  match classification_system db system_id with
  | .error e => .error e
  | .ok _ =>
    match db.style_formats.find? (fun f => f.id == style_format_id) with
    | none => .error .notFound
    | some _ =>
      let style : Styles :=
        { id := db.next_id, class_system_id := system_id,
          style_format_id := style_format_id,
          mime_type := get_mimetype filename, style := file_content }
      .ok (style, { db with next_id := db.next_id + 1, styles := db.styles ++ [style] })

/-- `insert_mapping`: `first_or_404` that the source class id belongs to
the declared source system, `first_or_404` that the target class id
belongs to the declared target system, then the mapping row is added with
no duplicate check of any kind. -/
def insert_mapping (db : DB) (system_id_source system_id_target : Nat)
    (target_class_id source_class_id : Nat) (description : Option String)
    (degree_of_similarity : Int) : Except ApiError DB :=
  match db.classes.find? (fun c =>
      c.id == source_class_id && c.class_system_id == system_id_source) with
  | none => .error .notFound
  | some _ =>
    match db.classes.find? (fun c =>
        c.id == target_class_id && c.class_system_id == system_id_target) with
    | none => .error .notFound
    | some _ =>
      let m : ClassMapping :=
        { id := db.next_id, source_class_id := source_class_id,
          target_class_id := target_class_id, description := description,
          degree_of_similarity := degree_of_similarity }
      .ok { db with next_id := db.next_id + 1, mappings := db.mappings ++ [m] }

/-- The row filter by which `update_mapping` locates "the" mapping. -/
def mappingKey (source_class_id target_class_id : Nat) (m : ClassMapping) : Bool :=
  m.source_class_id == source_class_id && m.target_class_id == target_class_id

/-- The two guarded in-place writes of `update_mapping` on the located
row: `if description: mapping.description = description` and
`if degree_of_similarity: mapping.degree_of_similarity = ...` — a falsy
supplied value leaves the stored field unchanged. -/
def updateMappingRow (description : Option String) (degree_of_similarity : Option Int)
    (m : ClassMapping) : ClassMapping :=
  let m1 := if truthyStr description then { m with description := description } else m
  if truthyInt degree_of_similarity then
    { m1 with degree_of_similarity := degree_of_similarity.getD m1.degree_of_similarity }
  else m1

/-- `update_mapping`: both class ids must belong to their declared systems
(`first_or_404` each) and a mapping row with the `(source, target)` pair
must exist (`first_or_404`); then `description` and `degree_of_similarity`
are each overwritten only when the supplied value is Python-truthy
(`if description:` / `if degree_of_similarity:`), and the change commits. -/
def update_mapping (db : DB) (system_id_source system_id_target : Nat)
    (target_class_id source_class_id : Nat) (description : Option String)
    (degree_of_similarity : Option Int) : Except ApiError DB :=
  match db.classes.find? (fun c =>
      c.id == source_class_id && c.class_system_id == system_id_source) with
  | none => .error .notFound
  | some _ =>
    match db.classes.find? (fun c =>
        c.id == target_class_id && c.class_system_id == system_id_target) with
    | none => .error .notFound
    | some _ =>
      match db.mappings.find? (mappingKey source_class_id target_class_id) with
      | none => .error .notFound
      | some _ =>
        let rows := updateFirst (mappingKey source_class_id target_class_id)
          (updateMappingRow description degree_of_similarity) db.mappings
        .ok { db with mappings := rows }

/-- `delete_mappings`: resolves the mapping set, then checks
`if mappings is None` — the query's `.all()` always returns a list, so the
guard is the constant-false test embedded here and the `abort(400)` branch
is unreachable; every resolved row is then deleted in one transaction. -/
def delete_mappings (db : DB) (system_id_source system_id_target : Nat) :
    Except ApiError DB :=
  let mappings := get_system_mapping db system_id_source system_id_target
  if (some mappings).isNone then .error .badRequest
  else
    let rows := mappings.foldl (fun acc m => eraseMappingById acc m.id) db.mappings
    .ok { db with mappings := rows }

/-- Modelled external collaborator: `LucClass.filter(**props)` is the
lccs_db base-model helper "query this table by property equality and
return all rows" (the store's query-with-filter interface of the spec). -/
def lucClassFilterBySystem (db : DB) (class_system_id : Nat) : List LucClass :=
  db.classes.filter (fun c => c.class_system_id == class_system_id)

/-- `delete_classes`: fetch every class of the given system through the
store's filter helper and delete each row in one nested transaction. -/
def delete_classes (db : DB) (class_system : LucClassificationSystem) : DB :=
  let classes := lucClassFilterBySystem db class_system.id
  { db with classes := classes.foldl (fun acc c => eraseClassById acc c.id) db.classes }

/-- `create_style_format`: a duplicate name hits `abort(400, ...)`;
otherwise the row is inserted and committed. -/
def create_style_format (db : DB) (name : String) :
    Except ApiError (StyleFormats × DB) :=
  match db.style_formats.find? (fun f => f.name == name) with
  | some _ => .error .badRequest
  | none =>
    let f : StyleFormats := { id := db.next_id, name := name }
    let db2 : DB :=
      { db with next_id := db.next_id + 1, style_formats := db.style_formats ++ [f] }
    .ok (f, db2)

/-- `db.session.delete(style_format)`: remove the style-format row with
the given primary key (first occurrence). -/
def eraseFormatById (fs : List StyleFormats) (fid : Nat) : List StyleFormats :=
  match fs with
  | [] => []
  | f :: rest => if f.id == fid then rest else f :: eraseFormatById rest fid

/-- `delete_style_format`: `first_or_404` by id, then delete the row. -/
def delete_style_format (db : DB) (style_format_id : Nat) : Except ApiError DB :=
  match db.style_formats.find? (fun f => f.id == style_format_id) with
  | none => .error .notFound
  | some f =>
    .ok { db with style_formats := eraseFormatById db.style_formats f.id }

/-- `update_style_format`: `first_or_404` by id, then overwrite the name. -/
def update_style_format (db : DB) (style_format_id : Nat) (name : String) :
    Except ApiError DB :=
  match db.style_formats.find? (fun f => f.id == style_format_id) with
  | none => .error .notFound
  | some _ =>
    let rows := updateFirst (fun f => f.id == style_format_id)
      (fun f => { f with name := name }) db.style_formats
    .ok { db with style_formats := rows }

/-- `get_identifier_style_format`: `first_or_404` lookup by name. -/
def get_identifier_style_format (db : DB) (style_format_name : String) :
    Except ApiError StyleFormats :=
  firstOr404 db.style_formats (fun f => f.name == style_format_name)

/-! Concrete store states, following the example scenario of the spec:
system 1 ("IBGE" 1.0) with classes Forest and Water, system 2 ("PRODES"
1.0) with class Deforestation, and one style format QML. -/

/-- Classification system 1 of the concrete scenario. -/
def sysIBGE : LucClassificationSystem :=
  { id := 1, name := "IBGE", authority_name := "INPE", version := "1.0",
    description := none }

/-- Classification system 2 of the concrete scenario. -/
def sysPRODES : LucClassificationSystem :=
  { id := 2, name := "PRODES", authority_name := "INPE", version := "1.0",
    description := none }

/-- Class Forest of system 1. -/
def clForest : LucClass :=
  { id := 10, name := "Forest", code := "F", description := none,
    class_system_id := 1, class_parent_id := none }

/-- Class Water of system 1. -/
def clWater : LucClass :=
  { id := 11, name := "Water", code := "W", description := none,
    class_system_id := 1, class_parent_id := none }

/-- Class Deforestation of system 2. -/
def clDeforestation : LucClass :=
  { id := 20, name := "Deforestation", code := "D", description := none,
    class_system_id := 2, class_parent_id := none }

/-- Style format QML. -/
def fmtQML : StyleFormats := { id := 7, name := "QML" }

/-- The base concrete store: two systems, three classes, no mappings, one
style format, no styles. -/
def dbMain : DB :=
  { next_id := 100, systems := [sysIBGE, sysPRODES],
    classes := [clForest, clWater, clDeforestation],
    mappings := [], style_formats := [fmtQML], styles := [] }

/-- A mapping row Forest ⟶ Deforestation used as pre-existing data. -/
def mapFD : ClassMapping :=
  { id := 50, source_class_id := 10, target_class_id := 20,
    description := some "orig", degree_of_similarity := 5 }

/-- The base store with the mapping Forest ⟶ Deforestation present. -/
def dbWithMap : DB := { dbMain with mappings := [mapFD] }

/-- Batch descriptor with a fresh name (really inserted before the
rollback). -/
def descGrass : ClassDesc :=
  { name := "Grass", code := "G", description := none, class_parent_id := none }

/-- Batch descriptor clashing with the existing class Forest of system 1. -/
def descForestDup : ClassDesc :=
  { name := "Forest", code := "F9", description := none, class_parent_id := none }

/-- The second, duplicate Forest ⟶ Deforestation mapping row as appended
by `insert_mapping` on `dbWithMap`. -/
def mapFD2 : ClassMapping :=
  { id := 100, source_class_id := 10, target_class_id := 20,
    description := none, degree_of_similarity := 1 }

/-- The store after inserting the duplicate Forest ⟶ Deforestation pair. -/
def dbDoubleMap : DB :=
  { dbWithMap with next_id := 101, mappings := [mapFD, mapFD2] }

/-- C1 (counterexample): with the pair ("IBGE", "1.0") already present,
`create_classification_system` rejects the duplicate with BadRequest
(HTTP 400), not the Conflict the claim states; the same holds for a
duplicate style-format name in `create_style_format`. -/
theorem c1_duplicate_create_not_conflict :
    (∃ s ∈ dbMain.systems, s.name = "IBGE" ∧ s.version = "1.0") ∧
    create_classification_system dbMain "IBGE" "X" "1.0" none = .error .badRequest ∧
    create_classification_system dbMain "IBGE" "X" "1.0" none ≠ .error .conflict ∧
    (∃ f ∈ dbMain.style_formats, f.name = "QML") ∧
    create_style_format dbMain "QML" = .error .badRequest ∧
    create_style_format dbMain "QML" ≠ .error .conflict := by decide

/-- C1 (amended): every uniqueness-violating create is rejected with no
row inserted (the error result carries no new state), but the signal is
Conflict (409) only for a duplicate class name within a system; a
duplicate system `(name, version)` pair and a duplicate style-format name
are rejected with BadRequest (400). -/
theorem c1_uniqueness_rejection (db : DB) (n a v : String) (d : Option String)
    (sid : Nat) (cn cc : String) (cd : Option String) (cp : Option Nat) (fn : String) :
    ((∃ s ∈ db.systems, s.name = n ∧ s.version = v) →
        create_classification_system db n a v d = .error .badRequest) ∧
    ((∃ c ∈ db.classes, c.class_system_id = sid ∧ c.name = cn) →
        insert_class db sid cn cc cd cp = .error .conflict) ∧
    ((∃ f ∈ db.style_formats, f.name = fn) →
        create_style_format db fn = .error .badRequest) := by
  refine ⟨?_, ?_, ?_⟩
  · rintro ⟨s, hs, h1, h2⟩
    have hsome : (db.systems.find? (fun s => s.name == n && s.version == v)).isSome :=
      List.find?_isSome.mpr ⟨s, hs, by simp [h1, h2]⟩
    obtain ⟨x, hx⟩ := Option.isSome_iff_exists.mp hsome
    unfold create_classification_system
    rw [hx]
  · rintro ⟨c, hc, h1, h2⟩
    have hsome : (db.classes.find? (fun c => c.class_system_id == sid && c.name == cn)).isSome :=
      List.find?_isSome.mpr ⟨c, hc, by simp [h1, h2]⟩
    obtain ⟨x, hx⟩ := Option.isSome_iff_exists.mp hsome
    unfold insert_class
    rw [hx]
  · rintro ⟨f, hf, h1⟩
    have hsome : (db.style_formats.find? (fun f => f.name == fn)).isSome :=
      List.find?_isSome.mpr ⟨f, hf, by simp [h1]⟩
    obtain ⟨x, hx⟩ := Option.isSome_iff_exists.mp hsome
    unfold create_style_format
    rw [hx]

/-- C1 witness: the amended rejection behaviour at the concrete store. -/
theorem c1_uniqueness_rejection_witness :
    create_classification_system dbMain "IBGE" "X" "1.0" none = .error .badRequest ∧
    insert_class dbMain 1 "Forest" "F2" none none = .error .conflict ∧
    create_style_format dbMain "QML" = .error .badRequest := by
  have h := c1_uniqueness_rejection dbMain "IBGE" "X" "1.0" none 1 "Forest" "F2" none none "QML"
  exact ⟨h.1 (by decide), h.2.1 (by decide), h.2.2 (by decide)⟩

/-- C2: with zero mappings between systems 1 and 2, `delete_mappings`
does not signal BadRequest: since `get_system_mapping` returns a (possibly
empty) list, the `is None` guard never fires and the call succeeds as a
no-op; when a mapping exists it is deleted as the claim states. -/
theorem c2_empty_mappings_delete_succeeds :
    get_system_mapping dbMain 1 2 = [] ∧
    delete_mappings dbMain 1 2 = .ok dbMain ∧
    delete_mappings dbMain 1 2 ≠ .error .badRequest ∧
    delete_mappings dbWithMap 1 2 = .ok dbMain := by decide

/-- Characterization of one `insert_class` call: either a row with the
same name already exists in the system and the call signals Conflict, or
no such row exists and the new class row is appended. -/
theorem insert_class_cases (db : DB) (sid : Nat) (n c : String)
    (d : Option String) (p : Option Nat) :
    (insert_class db sid n c d p = .error .conflict ∧
      (db.classes.find? (fun x => x.class_system_id == sid && x.name == n)).isSome) ∨
    (insert_class db sid n c d p =
        .ok { db with next_id := db.next_id + 1, classes := db.classes ++ [⟨db.next_id, n, c, d, sid, p⟩] } ∧
      ∀ x ∈ db.classes, ¬(x.class_system_id = sid ∧ x.name = n)) := by
  unfold insert_class
  cases hfind : db.classes.find? (fun x => x.class_system_id == sid && x.name == n) with
  | none =>
    right
    refine ⟨rfl, ?_⟩
    intro x hx hcon
    have := List.find?_eq_none.mp hfind x hx
    simp [hcon.1, hcon.2] at this
  | some y =>
    left
    exact ⟨rfl, rfl⟩

/-- If some descriptor's name is already used in the target system, the
insert loop of `insert_classes` signals Conflict: successful inserts only
ever append rows, so the clashing row is still present when the loop
reaches the duplicate descriptor. -/
theorem insertClassesLoop_error_of_dup (sid : Nat) :
    ∀ (descs : List ClassDesc) (db : DB),
      (∃ d ∈ descs, ∃ c ∈ db.classes, c.class_system_id = sid ∧ c.name = d.name) →
      insertClassesLoop sid db descs = .error .conflict := by
  intro descs
  induction descs with
  | nil =>
    intro db h
    rcases h with ⟨d, hd, _⟩
    cases hd
  | cons d0 ds ih =>
    intro db h
    rcases insert_class_cases db sid d0.name d0.code d0.description d0.class_parent_id with
      ⟨herr, _⟩ | ⟨hok, hnone⟩
    · unfold insertClassesLoop
      rw [herr]
    · unfold insertClassesLoop
      rw [hok]
      apply ih
      rcases h with ⟨d, hd, ⟨cl, hcl, h1, h2⟩⟩
      rcases List.mem_cons.mp hd with rfl | hd2
      · exact absurd ⟨h1, h2⟩ (hnone cl hcl)
      · exact ⟨d, hd2, cl, List.mem_append_left _ hcl, h1, h2⟩

/-- C3: if at least one descriptor of the batch has a name already used
within the target system, the whole `insert_classes` call fails (the loop
runs inside a single nested transaction, so the error rolls the batch
back) and the caller's class rows are exactly what they were before. -/
theorem c3_bulk_insert_rolls_back (db : DB) (system_id : Nat) (descs : List ClassDesc)
    (hdup : ∃ d ∈ descs, ∃ c ∈ db.classes, c.class_system_id = system_id ∧ c.name = d.name) :
    (∃ e, insert_classes db system_id descs = .error e) ∧
    DB.run db (insert_classes db system_id descs) = db := by
  have hloop := insertClassesLoop_error_of_dup system_id descs db hdup
  unfold insert_classes
  cases hsys : classification_system db system_id with
  | error e => exact ⟨⟨e, rfl⟩, rfl⟩
  | ok s =>
    rw [hloop]
    exact ⟨⟨.conflict, rfl⟩, rfl⟩

/-- C3 witness: a batch whose first descriptor is fresh and whose second
clashes rolls back at the concrete store. -/
theorem c3_bulk_insert_rolls_back_witness :
    (∃ e, insert_classes dbMain 1 [descGrass, descForestDup] = .error e) ∧
    DB.run dbMain (insert_classes dbMain 1 [descGrass, descForestDup]) = dbMain :=
  c3_bulk_insert_rolls_back dbMain 1 [descGrass, descForestDup] (by decide)

/-- C4 (counterexample): bulk class insert for the absent system id 99
signals NotFound, not the BadRequest the claim states. -/
theorem c4_missing_system_not_badrequest :
    (∀ s ∈ dbMain.systems, s.id ≠ 99) ∧
    insert_classes dbMain 99 [] = .error .notFound ∧
    insert_classes dbMain 99 [] ≠ .error .badRequest := by decide

/-- C4 (amended): for a system id matching no classification system,
`insert_classes` signals NotFound — raised by the `first_or_404` system
lookup before the unreachable BadRequest branch — and inserts no class
row (the caller's state is unchanged). -/
theorem c4_missing_system_insert_classes (db : DB) (system_id : Nat)
    (descs : List ClassDesc) (h : ∀ s ∈ db.systems, s.id ≠ system_id) :
    insert_classes db system_id descs = .error .notFound ∧
    DB.run db (insert_classes db system_id descs) = db := by
  have hnone : db.systems.find? (fun s => s.id == system_id) = none :=
    List.find?_eq_none.mpr (fun s hs => by simp [h s hs])
  have h1 : insert_classes db system_id descs = .error .notFound := by
    unfold insert_classes classification_system firstOr404
    rw [hnone]
  exact ⟨h1, by rw [h1]; rfl⟩

/-- C4 witness: the amended behaviour at the concrete store. -/
theorem c4_missing_system_insert_classes_witness :
    insert_classes dbMain 99 [] = .error .notFound ∧
    DB.run dbMain (insert_classes dbMain 99 []) = dbMain :=
  c4_missing_system_insert_classes dbMain 99 [] (by decide)

/-- C5: `get_mappings` returns, without duplicates, exactly the ids of
the systems owning at least one class that is the target of some mapping
whose source class belongs to the source system. -/
theorem c5_get_mappings_spec (db : DB) (src : Nat) :
    (get_mappings db src).Nodup ∧
    ∀ x, x ∈ get_mappings db src ↔
      ∃ s ∈ db.systems, s.id = x ∧
        ∃ c ∈ db.classes, c.class_system_id = x ∧
          ∃ m ∈ db.mappings, m.target_class_id = c.id ∧
            ∃ c2 ∈ db.classes, c2.id = m.source_class_id ∧ c2.class_system_id = src := by
  constructor
  · exact List.nodup_dedup _
  · intro x
    unfold get_mappings
    simp only [List.mem_dedup, List.mem_flatMap, List.mem_map, List.mem_filter,
      List.contains, List.elem_eq_mem, decide_eq_true_eq, Bool.and_eq_true, beq_iff_eq]
    constructor
    · rintro ⟨s, hs, c, ⟨hc, hcs, m, ⟨hm, c2, ⟨hc2, hc2s⟩, hc2id⟩, hmt⟩, hsx⟩
      subst hsx
      exact ⟨s, hs, rfl, c, hc, hcs, m, hm, hmt, c2, hc2, hc2id, hc2s⟩
    · rintro ⟨s, hs, rfl, c, hc, hcs, m, hm, hmt, c2, hc2, hc2id, hc2s⟩
      exact ⟨s, hs, c, ⟨hc, hcs, m, ⟨hm, c2, ⟨hc2, hc2s⟩, hc2id⟩, hmt⟩, rfl⟩

/-- C5 witness: the characterization instantiated at the concrete store
holding the Forest ⟶ Deforestation mapping. -/
theorem c5_get_mappings_spec_witness :
    (get_mappings dbWithMap 1).Nodup ∧
    (2 ∈ get_mappings dbWithMap 1 ↔
      ∃ s ∈ dbWithMap.systems, s.id = 2 ∧
        ∃ c ∈ dbWithMap.classes, c.class_system_id = 2 ∧
          ∃ m ∈ dbWithMap.mappings, m.target_class_id = c.id ∧
            ∃ c2 ∈ dbWithMap.classes, c2.id = m.source_class_id ∧ c2.class_system_id = 1) :=
  ⟨(c5_get_mappings_spec dbWithMap 1).1, (c5_get_mappings_spec dbWithMap 1).2 2⟩

/-- C10: an absent style-format id makes `get_style_format` return the
dump of no entity (`none`), with no NotFound signal possible, while
`update_style_format`, `delete_style_format` and (for an absent name)
`get_identifier_style_format` signal NotFound. -/
theorem c10_absent_style_format_semantics (db : DB) (style_format_id : Nat)
    (name newname : String)
    (hid : ∀ f ∈ db.style_formats, f.id ≠ style_format_id)
    (hname : ∀ f ∈ db.style_formats, f.name ≠ name) :
    get_style_format db style_format_id = none ∧
    update_style_format db style_format_id newname = .error .notFound ∧
    delete_style_format db style_format_id = .error .notFound ∧
    get_identifier_style_format db name = .error .notFound := by
  have hnone : db.style_formats.find? (fun f => f.id == style_format_id) = none :=
    List.find?_eq_none.mpr (fun f hf => by simp [hid f hf])
  have hnone2 : db.style_formats.find? (fun f => f.name == name) = none :=
    List.find?_eq_none.mpr (fun f hf => by simp [hname f hf])
  refine ⟨?_, ?_, ?_, ?_⟩
  · unfold get_style_format
    exact hnone
  · unfold update_style_format
    rw [hnone]
  · unfold delete_style_format
    rw [hnone]
  · unfold get_identifier_style_format firstOr404
    rw [hnone2]

/-- C10 witness: the absent-row semantics at the concrete store. -/
theorem c10_absent_style_format_semantics_witness :
    get_style_format dbMain 99 = none ∧
    update_style_format dbMain 99 "SLD" = .error .notFound ∧
    delete_style_format dbMain 99 = .error .notFound ∧
    get_identifier_style_format dbMain "SLD" = .error .notFound :=
  c10_absent_style_format_semantics dbMain 99 "SLD" "SLD" (by decide) (by decide)

/-- C6: `insert_mapping` signals NotFound exactly when the source class id
does not resolve to a class of the declared source system or the target
class id does not resolve to a class of the declared target system; when
both resolve, the new mapping row is appended unconditionally — no
duplicate check — regardless of any existing row between the same pair. -/
theorem c6_insert_mapping_spec (db : DB) (ss st tc sc : Nat)
    (d : Option String) (q : Int) :
    (insert_mapping db ss st tc sc d q = .error .notFound ↔
      ¬((∃ c ∈ db.classes, c.id = sc ∧ c.class_system_id = ss) ∧
        (∃ c ∈ db.classes, c.id = tc ∧ c.class_system_id = st))) ∧
    (∀ db2, insert_mapping db ss st tc sc d q = .ok db2 →
      db2.mappings = db.mappings ++ [⟨db.next_id, sc, tc, d, q⟩]) := by
  unfold insert_mapping
  cases hfs : db.classes.find? (fun c => c.id == sc && c.class_system_id == ss) with
  | none =>
    have hA : ¬∃ c ∈ db.classes, c.id = sc ∧ c.class_system_id = ss := by
      rintro ⟨c, hc, h1, h2⟩
      have := List.find?_eq_none.mp hfs c hc
      simp [h1, h2] at this
    exact ⟨iff_of_true rfl (fun hab => hA hab.1), fun db2 h => Except.noConfusion h⟩
  | some x =>
    have hA : ∃ c ∈ db.classes, c.id = sc ∧ c.class_system_id = ss := by
      refine ⟨x, List.mem_of_find?_eq_some hfs, ?_⟩
      have hx := List.find?_some hfs
      simpa using hx
    cases hft : db.classes.find? (fun c => c.id == tc && c.class_system_id == st) with
    | none =>
      have hB : ¬∃ c ∈ db.classes, c.id = tc ∧ c.class_system_id = st := by
        rintro ⟨c, hc, h1, h2⟩
        have := List.find?_eq_none.mp hft c hc
        simp [h1, h2] at this
      exact ⟨iff_of_true rfl (fun hab => hB hab.2), fun db2 h => Except.noConfusion h⟩
    | some y =>
      have hB : ∃ c ∈ db.classes, c.id = tc ∧ c.class_system_id = st := by
        refine ⟨y, List.mem_of_find?_eq_some hft, ?_⟩
        have hy := List.find?_some hft
        simpa using hy
      constructor
      · exact iff_of_false (fun h => Except.noConfusion h) (not_not_intro ⟨hA, hB⟩)
      · intro db2 h
        cases h
        rfl

/-- C6 witness: at the concrete store already holding the Forest ⟶
Deforestation mapping, inserting the very same pair again succeeds and
appends a second row between the same two classes. -/
theorem c6_insert_mapping_spec_witness :
    dbDoubleMap.mappings = dbWithMap.mappings ++ [mapFD2] ∧
    mapFD.source_class_id = mapFD2.source_class_id ∧
    mapFD.target_class_id = mapFD2.target_class_id := by
  have h := (c6_insert_mapping_spec dbWithMap 1 2 20 10 none 1).2 dbDoubleMap (by decide)
  exact ⟨h, by decide, by decide⟩

/-- `find?` over a list split at the first row satisfying `p` returns that
row. -/
theorem find?_append_cons {α : Type} (p : α → Bool) (l1 l2 : List α) (m : α)
    (h1 : ∀ x ∈ l1, p x = false) (hm : p m = true) :
    (l1 ++ m :: l2).find? p = some m := by
  induction l1 with
  | nil => simp [List.find?_cons_of_pos _ hm]
  | cons a l ih =>
    have ha := h1 a (List.mem_cons_self a l)
    rw [List.cons_append, List.find?_cons_of_neg _ (by simp [ha])]
    exact ih (fun x hx => h1 x (List.mem_cons_of_mem a hx))

/-- `updateFirst` over a list split at the first row satisfying `p`
rewrites exactly that row and keeps every other row untouched. -/
theorem updateFirst_append_cons {α : Type} (p : α → Bool) (f : α → α)
    (l1 l2 : List α) (m : α) (h1 : ∀ x ∈ l1, p x = false) (hm : p m = true) :
    updateFirst p f (l1 ++ m :: l2) = l1 ++ f m :: l2 := by
  induction l1 with
  | nil => simp [updateFirst, hm]
  | cons a l ih =>
    have ha := h1 a (List.mem_cons_self a l)
    rw [List.cons_append, updateFirst, if_neg (by simp [ha]), List.cons_append]
    rw [ih (fun x hx => h1 x (List.mem_cons_of_mem a hx))]

/-- C7: when both class ids resolve within their declared systems and a
mapping row with the `(source, target)` pair exists, `update_mapping`
succeeds and rewrites exactly the first row with that pair, leaving every
other row untouched; on that row, `description` and `degree_of_similarity`
are each overwritten only when the supplied value is truthy (`none`, the
empty string and `0` are skipped), and the identity fields never change. -/
theorem c7_update_mapping_falsy_skip (db : DB) (ss st tc sc : Nat)
    (d : Option String) (q : Option Int) (l1 l2 : List ClassMapping) (m : ClassMapping)
    (hs : (db.classes.find? (fun c => c.id == sc && c.class_system_id == ss)).isSome)
    (ht : (db.classes.find? (fun c => c.id == tc && c.class_system_id == st)).isSome)
    (hsplit : db.mappings = l1 ++ m :: l2)
    (hl1 : ∀ x ∈ l1, mappingKey sc tc x = false)
    (hm : mappingKey sc tc m = true) :
    update_mapping db ss st tc sc d q =
      .ok { db with mappings := l1 ++ updateMappingRow d q m :: l2 } ∧
    (updateMappingRow d q m).id = m.id ∧
    (updateMappingRow d q m).source_class_id = m.source_class_id ∧
    (updateMappingRow d q m).target_class_id = m.target_class_id ∧
    (updateMappingRow d q m).description = (if truthyStr d then d else m.description) ∧
    (updateMappingRow d q m).degree_of_similarity =
      (if truthyInt q then q.getD m.degree_of_similarity else m.degree_of_similarity) := by
  obtain ⟨cs, hcs⟩ := Option.isSome_iff_exists.mp hs
  obtain ⟨ct, hct⟩ := Option.isSome_iff_exists.mp ht
  have hfind : db.mappings.find? (mappingKey sc tc) = some m := by
    rw [hsplit]
    exact find?_append_cons _ _ _ _ hl1 hm
  have hupd : updateFirst (mappingKey sc tc) (updateMappingRow d q) db.mappings =
      l1 ++ updateMappingRow d q m :: l2 := by
    rw [hsplit]
    exact updateFirst_append_cons _ _ _ _ _ hl1 hm
  refine ⟨?_, ?_, ?_, ?_, ?_, ?_⟩
  · unfold update_mapping
    rw [hcs, hct, hfind, hupd]
  · unfold updateMappingRow
    cases htd : truthyStr d <;> cases htq : truthyInt q <;> simp [htd, htq]
  · unfold updateMappingRow
    cases htd : truthyStr d <;> cases htq : truthyInt q <;> simp [htd, htq]
  · unfold updateMappingRow
    cases htd : truthyStr d <;> cases htq : truthyInt q <;> simp [htd, htq]
  · unfold updateMappingRow
    cases htd : truthyStr d <;> cases htq : truthyInt q <;> simp [htd, htq]
  · unfold updateMappingRow
    cases htd : truthyStr d <;> cases htq : truthyInt q <;> simp [htd, htq]

/-- C7 witness: updating the stored Forest ⟶ Deforestation mapping with
`degree_of_similarity = 0` and no description leaves the row exactly as it
was (degree still 5, description still "orig"). -/
theorem c7_update_mapping_falsy_skip_witness :
    update_mapping dbWithMap 1 2 20 10 none (some 0) =
      .ok { dbWithMap with mappings := [] ++ updateMappingRow none (some 0) mapFD :: [] } ∧
    (updateMappingRow none (some 0) mapFD).degree_of_similarity = 5 ∧
    (updateMappingRow none (some 0) mapFD).description = some "orig" := by
  have h := c7_update_mapping_falsy_skip dbWithMap 1 2 20 10 none (some 0) [] [] mapFD
    (by decide) (by decide) (by decide) (by decide) (by decide)
  refine ⟨h.1, ?_, ?_⟩
  · rw [h.2.2.2.2.2]
    decide
  · rw [h.2.2.2.2.1]
    decide

/-- The two filters of `get_classification_system_style`, applied to a
style table whose old rows all miss the `(system, format)` pair and whose
appended row hits it (and joins an existing format), select exactly the
appended row. -/
theorem style_filters_append (formats : List StyleFormats) (olds : List Styles)
    (st : Styles) (system_id style_format_id : Nat)
    (h1 : st.class_system_id = system_id) (h2 : st.style_format_id = style_format_id)
    (hfmt : ∃ f ∈ formats, f.id = style_format_id)
    (hnone : ∀ s ∈ olds,
      ¬(s.class_system_id = system_id ∧ s.style_format_id = style_format_id)) :
    ((olds ++ [st]).filter (fun s => formats.any (fun f => f.id == s.style_format_id))).filter
      (fun s => s.class_system_id == system_id && s.style_format_id == style_format_id) =
      [st] := by
  obtain ⟨f0, hf0mem, hf0id⟩ := hfmt
  rw [List.filter_append, List.filter_append]
  have hstj : (formats.any (fun f => f.id == st.style_format_id)) = true :=
    List.any_eq_true.mpr ⟨f0, hf0mem, by simp [hf0id, h2]⟩
  have hs1 : ([st].filter (fun s => formats.any (fun f => f.id == s.style_format_id))) = [st] := by
    simp only [List.filter, hstj]
  have hempty : ((olds.filter (fun s => formats.any (fun f => f.id == s.style_format_id))).filter
      (fun s => s.class_system_id == system_id && s.style_format_id == style_format_id)) = [] := by
    rw [List.filter_eq_nil_iff]
    intro a ha
    have hmem := List.mem_of_mem_filter ha
    have hne := hnone a hmem
    simp only [Bool.and_eq_true, beq_iff_eq]
    rintro ⟨hx1, hx2⟩
    exact hne ⟨hx1, hx2⟩
  rw [hs1, hempty, List.nil_append]
  have hstp : (st.class_system_id == system_id && st.style_format_id == style_format_id) = true := by
    simp [h1, h2]
  simp only [List.filter, hstp]

/-- C8: inserting a style file for an existing system and an existing
style format, with no style yet stored for the pair, then reading back via
`get_classification_system_style`, returns exactly the uploaded byte
payload and the mime type derived from the original filename. -/
theorem c8_style_roundtrip (db : DB) (get_mimetype : String → String)
    (style_format_id system_id : Nat) (content : List Nat) (filename : String)
    (hs : (db.systems.find? (fun s => s.id == system_id)).isSome)
    (hf : (db.style_formats.find? (fun f => f.id == style_format_id)).isSome)
    (hnone : ∀ s ∈ db.styles,
      ¬(s.class_system_id = system_id ∧ s.style_format_id = style_format_id)) :
    ∃ st db2,
      insert_file db get_mimetype style_format_id system_id content filename = .ok (st, db2) ∧
      get_classification_system_style db2 system_id style_format_id =
        some (content, get_mimetype filename) := by
  obtain ⟨s0, hs0⟩ := Option.isSome_iff_exists.mp hs
  obtain ⟨f0, hf0⟩ := Option.isSome_iff_exists.mp hf
  have hf0mem : f0 ∈ db.style_formats := List.mem_of_find?_eq_some hf0
  have hf0id : f0.id = style_format_id := by
    have := List.find?_some hf0
    simpa using this
  have hins : insert_file db get_mimetype style_format_id system_id content filename =
      .ok ({ id := db.next_id, class_system_id := system_id, style_format_id := style_format_id, mime_type := get_mimetype filename, style := content },
        { db with next_id := db.next_id + 1, styles := db.styles ++ [{ id := db.next_id, class_system_id := system_id, style_format_id := style_format_id, mime_type := get_mimetype filename, style := content }] }) := by
    unfold insert_file classification_system firstOr404
    rw [hs0, hf0]
  refine ⟨_, _, hins, ?_⟩
  · unfold get_classification_system_style
    dsimp only
    rw [style_filters_append db.style_formats db.styles _ system_id style_format_id rfl rfl
      ⟨f0, hf0mem, hf0id⟩ hnone]
    rfl

/-- C8 witness: the round trip at the concrete store, with a concrete
mime resolver. -/
theorem c8_style_roundtrip_witness :
    ∃ st db2,
      insert_file dbMain (fun _ => "application/qml") 7 1 [10, 20, 30] "legend.qml" =
        .ok (st, db2) ∧
      get_classification_system_style db2 1 7 = some ([10, 20, 30], "application/qml") :=
  c8_style_roundtrip dbMain (fun _ => "application/qml") 7 1 [10, 20, 30] "legend.qml"
    (by decide) (by decide) (by decide)

/-- Deleting rows whose ids all differ from the id of the head of the
accumulator leaves that head in place. -/
theorem foldl_eraseClass_cons (dels : List LucClass) (x : LucClass) :
    ∀ acc : List LucClass, (∀ c ∈ dels, c.id ≠ x.id) →
      dels.foldl (fun a c => eraseClassById a c.id) (x :: acc) =
        x :: dels.foldl (fun a c => eraseClassById a c.id) acc := by
  induction dels with
  | nil =>
    intro acc h
    rfl
  | cons dl ds ih =>
    intro acc h
    have hdl : dl.id ≠ x.id := h dl (List.mem_cons_self dl ds)
    simp only [List.foldl_cons]
    rw [show eraseClassById (x :: acc) dl.id = x :: eraseClassById acc dl.id from by
      rw [eraseClassById, if_neg (by simp [Ne.symm hdl])]]
    exact ih _ (fun c hc => h c (List.mem_cons_of_mem dl hc))

/-- Deleting, one by one, exactly the rows of a system (primary keys
assumed distinct) is the same as filtering the table down to the other
systems' rows. -/
theorem foldl_eraseClass_filter (sid : Nat) :
    ∀ l : List LucClass, (l.map (fun c => c.id)).Nodup →
      (l.filter (fun c => c.class_system_id == sid)).foldl
        (fun a c => eraseClassById a c.id) l =
      l.filter (fun c => c.class_system_id != sid) := by
  intro l
  induction l with
  | nil =>
    intro h
    rfl
  | cons x xs ih =>
    intro hnd
    rw [List.map_cons] at hnd
    have hx : x.id ∉ xs.map (fun c => c.id) := (List.nodup_cons.mp hnd).1
    have hnd2 := (List.nodup_cons.mp hnd).2
    by_cases hP : x.class_system_id = sid
    · rw [List.filter_cons_of_pos (by simp [hP])]
      simp only [List.foldl_cons]
      rw [show eraseClassById (x :: xs) x.id = xs from by
        rw [eraseClassById, if_pos (by simp)]]
      rw [List.filter_cons_of_neg (by simp [hP])]
      exact ih hnd2
    · rw [List.filter_cons_of_neg (by simp [hP])]
      have hne : ∀ c ∈ xs.filter (fun c => c.class_system_id == sid), c.id ≠ x.id := by
        intro c hc hceq
        exact hx (hceq ▸ List.mem_map_of_mem _ (List.mem_of_mem_filter hc))
      rw [foldl_eraseClass_cons _ x xs hne]
      rw [List.filter_cons_of_pos (by simp [hP])]
      rw [ih hnd2]

/-- C9: `delete_classes` removes exactly the class rows of the given
system (assuming distinct primary keys) and leaves the classes of every
other system, and the other four tables, unchanged. -/
theorem c9_delete_classes_spec (db : DB) (cs : LucClassificationSystem)
    (h : (db.classes.map (fun c => c.id)).Nodup) :
    (delete_classes db cs).classes =
      db.classes.filter (fun c => c.class_system_id != cs.id) ∧
    (delete_classes db cs).systems = db.systems ∧
    (delete_classes db cs).mappings = db.mappings ∧
    (delete_classes db cs).style_formats = db.style_formats ∧
    (delete_classes db cs).styles = db.styles := by
  refine ⟨?_, rfl, rfl, rfl, rfl⟩
  unfold delete_classes lucClassFilterBySystem
  exact foldl_eraseClass_filter cs.id db.classes h

/-- C9 witness: deleting the classes of system 1 at the concrete store
removes Forest and Water and keeps Deforestation. -/
theorem c9_delete_classes_spec_witness :
    (delete_classes dbMain sysIBGE).classes = [clDeforestation] ∧
    (delete_classes dbMain sysIBGE).systems = dbMain.systems := by
  have h := c9_delete_classes_spec dbMain sysIBGE (by decide)
  refine ⟨?_, h.2.1⟩
  rw [h.1]
  decide

end LccsWs
